import Mathlib

/-!
Verification of `grr/lib/rdfvalues/flows.py` against its specification.

The development shallowly embeds the behaviourally relevant parts of the file:

* the 64-bit task-identifier allocator (`GrrMessage.GenerateTaskID`, and the
  deprecated allocation code inlined in `Task.__init__`), with the process-wide
  counters `GrrMessage.next_id_base` / `Task.next_id_base` made explicit state;
* the message envelope constructor and payload property (`GrrMessage.__init__`,
  `GrrMessage.payload` getter and setter);
* the mutable flow-state container (`DataObject`, `FlowState`) together with a
  concrete model of the opaque pickle blob boundary it serializes through.

Machine integers are embedded as `Nat` with the masks written exactly as in the
source (`&&& 0xFFFFFFFF`, `&&& 0x1FFFFFFF`); Python's arbitrary-precision
integers make this the faithful reading.  Wall-clock time, and the value drawn
from `utils.PRNG.GetUShort()`, are passed in as explicit parameters.
-/

/-! ## Process-wide allocator state

`GrrMessage` declares `lock`/`next_id_base` class attributes (flows.py lines
19-20) and `Task` declares its own (lines 311-312).  Both are modelled as one
explicit state record.  The `with Task.lock` critical sections are modelled by
making the read-modify-write of the counter a single atomic step function. -/

structure SchedulerState where
  grrMessageNextIdBase : Nat
  taskNextIdBase : Nat

/-- `GrrMessage.max_priority` (flows.py line 25). -/
def maxPriority : Nat := 7

/-- The body of the `with Task.lock:` block shared, textually, by
`GrrMessage.GenerateTaskID` (lines 48-55) and `Task.__init__` (lines 349-356):
`id_base = (next_id_base + random_number) & 0xFFFFFFFF`, with a
`time.sleep(0.001)` when the addition wrapped.  The first component is the
committed counter value, the second records whether the sleep ran (the sleep
does not touch the committed value). -/
def taskIdBaseUpdate (next_id_base random_number : Nat) : Nat × Bool :=
  let id_base := (next_id_base + random_number) &&& 0xFFFFFFFF
  (id_base, decide (id_base < next_id_base))

/-- The packing tail of `GrrMessage.GenerateTaskID` (lines 57-65):
`time_base = (long(time.time() * 1000) & 0x1FFFFFFF) << 32`; the top three
bits are `self.max_priority - self.priority` (the source calls this value
priority underscore pre fix); `task_id = time_base | id_base`; the top bits
are then OR-ed in, shifted left by 61. -/
def packTaskId (priority time_ms id_base : Nat) : Nat :=
  let time_base := (time_ms &&& 0x1FFFFFFF) <<< 32
  let prio_bits := maxPriority - priority
  let task_id := time_base ||| id_base
  task_id ||| (prio_bits <<< 61)

/-- `GrrMessage.GenerateTaskID` (lines 42-65).  `r` is the 16-bit value drawn
from `utils.PRNG.GetUShort()`; the code adds 1 so the counter step cannot be
zero.  Note the counter it reads and commits is `Task.next_id_base`, not the
`GrrMessage.next_id_base` declared on line 20. -/
def GenerateTaskID (priority time_ms r : Nat) (s : SchedulerState) : Nat × SchedulerState :=
  let random_number := r + 1
  let step := taskIdBaseUpdate s.taskNextIdBase random_number
  (packTaskId priority time_ms step.1, { s with taskNextIdBase := step.1 })

/-- The deprecated identifier allocation inlined in `Task.__init__`
(lines 346-361): same counter update under `Task.lock`, but a full 32-bit
timestamp field and no priority prefix: `self.id = time_base + id_base` with
`time_base = (long(time.time() * 1000) & 0xFFFFFFFF) << 32`. -/
def taskMintId (time_ms r : Nat) (s : SchedulerState) : Nat × SchedulerState :=
  let random_number := r + 1
  let step := taskIdBaseUpdate s.taskNextIdBase random_number
  let time_base := (time_ms &&& 0xFFFFFFFF) <<< 32
  (time_base + step.1, { s with taskNextIdBase := step.1 })

/-! ### Arithmetic helpers for the bit layout -/

theorem shiftLeft_or_of_lt {a b n : Nat} (hb : b < 2 ^ n) :
    (a <<< n) ||| b = a * 2 ^ n + b := by
  rw [Nat.shiftLeft_eq, Nat.mul_comm, ← Nat.mul_add_lt_is_or hb, Nat.mul_comm]

theorem and_mask29 (t : Nat) : t &&& 0x1FFFFFFF = t % 2 ^ 29 := by
  have h : (0x1FFFFFFF : Nat) = 2 ^ 29 - 1 := by norm_num
  rw [h, Nat.and_pow_two_sub_one_eq_mod]

theorem and_mask32 (x : Nat) : x &&& 0xFFFFFFFF = x % 2 ^ 32 := by
  have h : (0xFFFFFFFF : Nat) = 2 ^ 32 - 1 := by norm_num
  rw [h, Nat.and_pow_two_sub_one_eq_mod]

theorem packTaskId_eq (p t b : Nat) (hb : b < 2 ^ 32) :
    packTaskId p t b = (7 - p) * 2 ^ 61 + (t % 2 ^ 29) * 2 ^ 32 + b := by
  have hmid : (t % 2 ^ 29) * 2 ^ 32 + b < 2 ^ 61 := by
    have ht : t % 2 ^ 29 < 2 ^ 29 := Nat.mod_lt _ (by norm_num)
    omega
  show ((t &&& 0x1FFFFFFF) <<< 32 ||| b) ||| ((maxPriority - p) <<< 61) = _
  rw [and_mask29, shiftLeft_or_of_lt hb, Nat.lor_comm, shiftLeft_or_of_lt hmid]
  show (maxPriority - p) * 2 ^ 61 + _ = _
  rw [maxPriority]
  omega

theorem generateTaskID_fst (p t r : Nat) (s : SchedulerState) :
    (GenerateTaskID p t r s).1
      = packTaskId p t ((s.taskNextIdBase + (r + 1)) &&& 0xFFFFFFFF) := rfl

theorem generateTaskID_base_lt (x r : Nat) : (x + (r + 1)) &&& 0xFFFFFFFF < 2 ^ 32 :=
  Nat.and_lt_two_pow _ (by norm_num)

/-- C1: identifiers minted by `GrrMessage.GenerateTaskID` at a higher priority
(both priorities in `[0,7]`) are numerically smaller than identifiers minted at
a lower priority, for every timestamp, every drawn random value and every
counter state — in particular for equal timestamps and equal allocation
bases. -/
theorem generateTaskID_priority_sorts_first
    (p1 p2 t1 t2 r1 r2 : Nat) (s1 s2 : SchedulerState)
    (hp1 : p1 ≤ 7) (hp2 : p2 ≤ 7) (hlt : p1 < p2) :
    (GenerateTaskID p2 t2 r2 s2).1 < (GenerateTaskID p1 t1 r1 s1).1 := by
  rw [generateTaskID_fst, generateTaskID_fst,
    packTaskId_eq _ _ _ (generateTaskID_base_lt s2.taskNextIdBase r2),
    packTaskId_eq _ _ _ (generateTaskID_base_lt s1.taskNextIdBase r1)]
  have hb1 := generateTaskID_base_lt s1.taskNextIdBase r1
  have hb2 := generateTaskID_base_lt s2.taskNextIdBase r2
  have hm1 : t1 % 2 ^ 29 < 2 ^ 29 := Nat.mod_lt _ (by norm_num)
  have hm2 : t2 % 2 ^ 29 < 2 ^ 29 := Nat.mod_lt _ (by norm_num)
  omega

/-- Witness for C1 at priorities 2 and 5, distinct timestamps and states. -/
theorem generateTaskID_priority_sorts_first_witness :
    (2 : Nat) ≤ 7 ∧ (5 : Nat) ≤ 7 ∧ (2 : Nat) < 5 ∧
      (GenerateTaskID 5 99999 7 ⟨0, 123⟩).1 < (GenerateTaskID 2 12345 3 ⟨0, 456⟩).1 :=
  ⟨by decide, by decide, by decide,
    generateTaskID_priority_sorts_first 2 5 12345 99999 3 7 ⟨0, 456⟩ ⟨0, 123⟩
      (by decide) (by decide) (by decide)⟩

/-- C2: for every priority in `[0,7]`, time `t` and the allocation base `b`
committed by the call, `GrrMessage.GenerateTaskID` returns exactly
`((7 - priority) <<< 61) ||| ((t % 2^29) <<< 32) ||| b`, the committed base lies
in `[0, 2^32)`, and the priority-prefix bits 63-61 equal `7 - priority`, hence
lie in `[0,7]`. -/
theorem generateTaskID_bit_layout (p t r : Nat) (s : SchedulerState) (hp : p ≤ 7) :
    (GenerateTaskID p t r s).1
        = ((7 - p) <<< 61) ||| ((t % 2 ^ 29) <<< 32) ||| (GenerateTaskID p t r s).2.taskNextIdBase
      ∧ (GenerateTaskID p t r s).2.taskNextIdBase < 2 ^ 32
      ∧ ((GenerateTaskID p t r s).1 >>> 61) &&& 7 = 7 - p
      ∧ 7 - p ≤ 7 := by
  have hb := generateTaskID_base_lt s.taskNextIdBase r
  have hbase : (GenerateTaskID p t r s).2.taskNextIdBase
      = (s.taskNextIdBase + (r + 1)) &&& 0xFFFFFFFF := rfl
  have hmid : (t % 2 ^ 29) * 2 ^ 32 + ((s.taskNextIdBase + (r + 1)) &&& 0xFFFFFFFF) < 2 ^ 61 := by
    have ht : t % 2 ^ 29 < 2 ^ 29 := Nat.mod_lt _ (by norm_num)
    omega
  have hsum : (GenerateTaskID p t r s).1
      = (7 - p) * 2 ^ 61 + ((t % 2 ^ 29) * 2 ^ 32
          + ((s.taskNextIdBase + (r + 1)) &&& 0xFFFFFFFF)) := by
    rw [generateTaskID_fst, packTaskId_eq _ _ _ hb]
    omega
  refine ⟨?_, hbase ▸ hb, ?_, by omega⟩
  · rw [hsum, hbase, Nat.lor_assoc, shiftLeft_or_of_lt hb, shiftLeft_or_of_lt hmid]
  · rw [hsum, Nat.shiftRight_eq_div_pow]
    have hdiv : ((7 - p) * 2 ^ 61
        + ((t % 2 ^ 29) * 2 ^ 32 + ((s.taskNextIdBase + (r + 1)) &&& 0xFFFFFFFF))) / 2 ^ 61
        = 7 - p := by omega
    rw [hdiv]
    have h7 : (7 : Nat) = 2 ^ 3 - 1 := by norm_num
    rw [h7, Nat.and_pow_two_sub_one_eq_mod]
    omega

/-- Witness for C2 at priority 3, a concrete timestamp and counter state. -/
theorem generateTaskID_bit_layout_witness :
    (3 : Nat) ≤ 7 ∧
      ((GenerateTaskID 3 987654321 41 ⟨9, 77⟩).1
          = ((7 - 3) <<< 61) ||| ((987654321 % 2 ^ 29) <<< 32)
              ||| (GenerateTaskID 3 987654321 41 ⟨9, 77⟩).2.taskNextIdBase
        ∧ (GenerateTaskID 3 987654321 41 ⟨9, 77⟩).2.taskNextIdBase < 2 ^ 32
        ∧ ((GenerateTaskID 3 987654321 41 ⟨9, 77⟩).1 >>> 61) &&& 7 = 7 - 3
        ∧ 7 - 3 ≤ 7) :=
  ⟨by decide, generateTaskID_bit_layout 3 987654321 41 ⟨9, 77⟩ (by decide)⟩

/-- C8: one allocation step commits exactly `(b + (r + 1)) % 2^32` as the new
shared counter value; the step `r + 1` is never zero; the sleep flag fires
exactly on wraparound and the committed value is the same whether or not the
sleep ran. -/
theorem allocation_base_step (p t r : Nat) (s : SchedulerState)
    (hb : s.taskNextIdBase < 2 ^ 32) (hr : r < 2 ^ 16) :
    (GenerateTaskID p t r s).2.taskNextIdBase = (s.taskNextIdBase + (r + 1)) % 2 ^ 32
      ∧ r + 1 ≠ 0
      ∧ (taskIdBaseUpdate s.taskNextIdBase (r + 1)).2
          = decide ((s.taskNextIdBase + (r + 1)) % 2 ^ 32 < s.taskNextIdBase)
      ∧ (taskIdBaseUpdate s.taskNextIdBase (r + 1)).1
          = (s.taskNextIdBase + (r + 1)) % 2 ^ 32 := by
  refine ⟨?_, by omega, ?_, ?_⟩
  · show (s.taskNextIdBase + (r + 1)) &&& 0xFFFFFFFF = _
    exact and_mask32 _
  · show decide ((s.taskNextIdBase + (r + 1)) &&& 0xFFFFFFFF < s.taskNextIdBase) = _
    rw [and_mask32]
  · show (s.taskNextIdBase + (r + 1)) &&& 0xFFFFFFFF = _
    exact and_mask32 _

/-- Witness for C8 at a base close to `2^32` so that the addition wraps. -/
theorem allocation_base_step_witness :
    (4294967290 : Nat) < 2 ^ 32 ∧ (65535 : Nat) < 2 ^ 16 ∧
      ((GenerateTaskID 0 0 65535 ⟨0, 4294967290⟩).2.taskNextIdBase
          = (4294967290 + (65535 + 1)) % 2 ^ 32
        ∧ 65535 + 1 ≠ 0
        ∧ (taskIdBaseUpdate 4294967290 (65535 + 1)).2
            = decide ((4294967290 + (65535 + 1)) % 2 ^ 32 < 4294967290)
        ∧ (taskIdBaseUpdate 4294967290 (65535 + 1)).1
            = (4294967290 + (65535 + 1)) % 2 ^ 32) :=
  ⟨by decide, by decide,
    allocation_base_step 0 0 65535 ⟨0, 4294967290⟩ (by decide) (by decide)⟩

/-- C10: `GrrMessage.GenerateTaskID` and the deprecated allocation in
`Task.__init__` advance one and the same process-wide counter,
`Task.next_id_base`, by the identical critical-section computation, while the
separately declared `GrrMessage.next_id_base` is neither read (the result is
independent of it) nor advanced by any allocation. -/
theorem shared_task_counter (p t tLegacy r : Nat) (s : SchedulerState) :
    (GenerateTaskID p t r s).2.grrMessageNextIdBase = s.grrMessageNextIdBase
      ∧ (taskMintId tLegacy r s).2.grrMessageNextIdBase = s.grrMessageNextIdBase
      ∧ (GenerateTaskID p t r s).2.taskNextIdBase = (taskMintId tLegacy r s).2.taskNextIdBase
      ∧ (GenerateTaskID p t r s).2.taskNextIdBase
          = (taskIdBaseUpdate s.taskNextIdBase (r + 1)).1
      ∧ (∀ g : Nat,
          (GenerateTaskID p t r { s with grrMessageNextIdBase := g }).1
            = (GenerateTaskID p t r s).1)
      ∧ (∀ g : Nat,
          (GenerateTaskID p t r { s with grrMessageNextIdBase := g }).2.taskNextIdBase
            = (GenerateTaskID p t r s).2.taskNextIdBase) :=
  ⟨rfl, rfl, rfl, rfl, fun _ => rfl, fun _ => rfl⟩

/-! ## Python values and the pickle blob boundary

`FlowState` stores arbitrary Python values in a `DataObject` (a `dict`
subclass) and persists them with `cPickle`.  `PyVal` embeds the Python values
relevant here: `None`, booleans, integers, strings and string-keyed
dictionaries (a `DataObject` is its entry list, in insertion order). -/

inductive PyVal where
  | pnone
  | pbool (b : Bool)
  | pint (n : Int)
  | pstr (s : String)
  | pdict (entries : List (String × PyVal))

/-- Python truthiness of an embedded value (`None`, `False`, `0`, `""` and the
empty dict are falsy). -/
def PyVal.truthy : PyVal → Bool
  | .pnone => false
  | .pbool b => b
  | .pint n => decide (n ≠ 0)
  | .pstr s => decide (s ≠ "")
  | .pdict es => !es.isEmpty

/-- Python `d[k]` lookup on an ordered dictionary. -/
def lookupKey {α : Type} : List (String × α) → String → Option α
  | [], _ => Option.none
  | (k', v') :: rest, k => if k' = k then some v' else lookupKey rest k

/-- Python `d[k] = v`: overwrite in place if the key exists, append otherwise. -/
def setKey {α : Type} : List (String × α) → String → α → List (String × α)
  | [], k, v => [(k, v)]
  | (k', v') :: rest, k, v =>
    if k' = k then (k, v) :: rest else (k', v') :: setKey rest k v

/-- Python `k in d`. -/
def hasKey {α : Type} (es : List (String × α)) (k : String) : Bool :=
  (lookupKey es k).isSome

theorem lookupKey_setKey_self {α : Type} (es : List (String × α)) (k : String) (v : α) :
    lookupKey (setKey es k v) k = some v := by
  induction es with
  | nil => simp [setKey, lookupKey]
  | cons hd tl ih =>
    obtain ⟨k', v'⟩ := hd
    by_cases h : k' = k
    · simp [setKey, lookupKey, h]
    · simp [setKey, lookupKey, h, ih]

/-! ### The opaque blob boundary

Modelled from the spec: `FlowState` persists through `cPickle.dumps` /
`cPickle.loads`, which are outside this repository's sources; the spec
describes them only as the opaque blob persistence boundary
(`Serialize(arbitrary structured value) -> bytes`,
`Deserialize(bytes) -> arbitrary structured value`, nested mappings
supported, failure surfaced as a decode error).  The concrete encoder below
realises that boundary: a tag-and-length prefix code over symbol lists. -/

def intToNat (n : Int) : Nat := if 0 ≤ n then 2 * n.toNat else 2 * (-n).toNat - 1

def natToInt (m : Nat) : Int :=
  if m % 2 = 0 then ((m / 2 : Nat) : Int) else -(((m + 1) / 2 : Nat) : Int)

theorem natToInt_intToNat (n : Int) : natToInt (intToNat n) = n := by
  unfold intToNat natToInt
  by_cases h : 0 ≤ n
  · simp only [h, if_true]
    omega
  · simp only [h, if_false]
    omega

def encodeStr (s : String) : List Nat := 3 :: s.data.length :: s.data.map Char.toNat

mutual
def encodePy : PyVal → List Nat
  | .pnone => [0]
  | .pbool b => [1, if b then 1 else 0]
  | .pint n => [2, intToNat n]
  | .pstr s => encodeStr s
  | .pdict es => 4 :: es.length :: encodeEntries es
def encodeEntries : List (String × PyVal) → List Nat
  | [] => []
  | (k, v) :: rest => encodeStr k ++ (encodePy v ++ encodeEntries rest)
end

mutual
def pySize : PyVal → Nat
  | .pdict es => 1 + entriesSize es
  | _ => 1
def entriesSize : List (String × PyVal) → Nat
  | [] => 0
  | (_, v) :: rest => 1 + pySize v + entriesSize rest
end

def decodeStrBody (len : Nat) (l : List Nat) : Option (String × List Nat) :=
  if len ≤ l.length then
    some (String.mk ((l.take len).map Char.ofNat), l.drop len)
  else
    Option.none

mutual
def decodePy : Nat → List Nat → Option (PyVal × List Nat)
  | 0, _ => Option.none
  | _ + 1, [] => Option.none
  | _ + 1, 0 :: rest => some (.pnone, rest)
  | _ + 1, 1 :: c :: rest => some (.pbool (c == 1), rest)
  | _ + 1, 2 :: m :: rest => some (.pint (natToInt m), rest)
  | _ + 1, 3 :: len :: rest => (decodeStrBody len rest).map (fun p => (.pstr p.1, p.2))
  | fuel + 1, 4 :: n :: rest => (decodeEntries fuel n rest).map (fun p => (.pdict p.1, p.2))
  | _ + 1, _ => Option.none
def decodeEntries : Nat → Nat → List Nat → Option (List (String × PyVal) × List Nat)
  | _, 0, l => some ([], l)
  | fuel, n + 1, l =>
    match decodePy fuel l with
    | some (PyVal.pstr k, l1) =>
      match decodePy fuel l1 with
      | some (v, l2) =>
        match decodeEntries fuel n l2 with
        | some (es, l3) => some ((k, v) :: es, l3)
        | Option.none => Option.none
      | Option.none => Option.none
    | _ => Option.none
end

theorem decodePy_encodeStr (s : String) (rest : List Nat) (fuel : Nat) :
    decodePy (fuel + 1) (encodeStr s ++ rest) = some (.pstr s, rest) := by
  simp only [encodeStr, List.cons_append, decodePy, decodeStrBody]
  rw [List.length_append, List.length_map]
  simp only [Nat.le_add_right, if_true]
  have h1 : ((s.data.map Char.toNat ++ rest).take s.data.length) = s.data.map Char.toNat := by
    have h := List.take_left (s.data.map Char.toNat) rest
    simpa using h
  have h2 : ((s.data.map Char.toNat ++ rest).drop s.data.length) = rest := by
    have h := List.drop_left (s.data.map Char.toNat) rest
    simpa using h
  rw [h1, h2]
  have h3 : (s.data.map Char.toNat).map Char.ofNat = s.data := by
    rw [List.map_map]
    simp [Function.comp_def, Char.ofNat_toNat]
  rw [h3]
  rfl

mutual
theorem decodePy_encodePy (v : PyVal) (rest : List Nat) (fuel : Nat) (h : pySize v ≤ fuel) :
    decodePy fuel (encodePy v ++ rest) = some (v, rest) := by
  match v, fuel with
  | v, 0 =>
    exfalso
    have h1 : 1 ≤ pySize v := by cases v <;> simp [pySize]
    omega
  | .pnone, fuel + 1 => simp [encodePy, decodePy]
  | .pbool b, fuel + 1 => cases b <;> simp [encodePy, decodePy]
  | .pint n, fuel + 1 => simp [encodePy, decodePy, natToInt_intToNat]
  | .pstr s, fuel + 1 => exact decodePy_encodeStr s rest fuel
  | .pdict es, fuel + 1 =>
    have hsz : entriesSize es ≤ fuel := by
      have h1 : pySize (.pdict es) = 1 + entriesSize es := by simp [pySize]
      omega
    simp only [encodePy, List.cons_append, decodePy]
    rw [decodeEntries_encodeEntries es rest fuel hsz]
    rfl
theorem decodeEntries_encodeEntries (es : List (String × PyVal)) (rest : List Nat) (fuel : Nat)
    (h : entriesSize es ≤ fuel) :
    decodeEntries fuel es.length (encodeEntries es ++ rest) = some (es, rest) := by
  match es, fuel with
  | [], fuel => simp [encodeEntries, decodeEntries]
  | (k, v) :: tl, fuel =>
    have hsz : entriesSize ((k, v) :: tl) = 1 + pySize v + entriesSize tl := by
      simp [entriesSize]
    have hfuel : ∃ f, fuel = f + 1 := ⟨fuel - 1, by omega⟩
    obtain ⟨f, rfl⟩ := hfuel
    have e1 : decodePy (f + 1) (encodeStr k ++ (encodePy v ++ (encodeEntries tl ++ rest)))
        = some (.pstr k, encodePy v ++ (encodeEntries tl ++ rest)) :=
      decodePy_encodeStr k _ f
    have e2 : decodePy (f + 1) (encodePy v ++ (encodeEntries tl ++ rest))
        = some (v, encodeEntries tl ++ rest) :=
      decodePy_encodePy v _ (f + 1) (by omega)
    have e3 : decodeEntries (f + 1) tl.length (encodeEntries tl ++ rest) = some (tl, rest) :=
      decodeEntries_encodeEntries tl rest (f + 1) (by omega)
    show decodeEntries (f + 1) (tl.length + 1) (encodeEntries ((k, v) :: tl) ++ rest) = _
    simp only [encodeEntries, List.append_assoc]
    simp [decodeEntries, e1, e2, e3]
end

mutual
theorem pySize_le_encode (v : PyVal) : pySize v ≤ (encodePy v).length := by
  match v with
  | .pnone => simp [pySize, encodePy]
  | .pbool b => simp [pySize, encodePy]
  | .pint n => simp [pySize, encodePy]
  | .pstr s => simp [pySize, encodePy, encodeStr]
  | .pdict es =>
    have h := entriesSize_le_encode es
    simp only [pySize, encodePy, List.length_cons]
    omega
theorem entriesSize_le_encode (es : List (String × PyVal)) :
    entriesSize es ≤ (encodeEntries es).length := by
  match es with
  | [] => simp [entriesSize, encodeEntries]
  | (k, v) :: tl =>
    have h1 := pySize_le_encode v
    have h2 := entriesSize_le_encode tl
    simp only [entriesSize, encodeEntries, List.length_append, encodeStr, List.length_cons]
    omega
end

/-- Errors surfaced by the embedded Python code. -/
inductive PyErr where
  | attributeError (msg : String)
  | typeError
  | decodeError
deriving DecidableEq

/-- `cPickle.dumps` at the blob boundary. -/
def pickleDumps (v : PyVal) : List Nat := encodePy v

/-- `cPickle.loads` at the blob boundary; failure is a decode error. -/
def pickleLoads (l : List Nat) : Except PyErr PyVal :=
  match decodePy l.length l with
  | some (v, _) => .ok v
  | Option.none => .error .decodeError

theorem pickleLoads_pickleDumps (v : PyVal) : pickleLoads (pickleDumps v) = .ok v := by
  unfold pickleLoads pickleDumps
  have h : decodePy (encodePy v).length (encodePy v ++ []) = some (v, []) :=
    decodePy_encodePy v [] (encodePy v).length (pySize_le_encode v)
  rw [List.append_nil] at h
  rw [h]

/-! ## DataObject and FlowState

`DataObject` (flows.py lines 128-158) is a `dict` subclass whose `Register`
and `__setattr__` are both the plain write `self[item] = value`.  `FlowState`
(lines 161-232) keeps one `DataObject` in `self.data` and enforces the
register-before-write discipline in its own `__setattr__`. -/

/-- Names bound on the `FlowState` class body (lines 161-232).
`FlowState.__setattr__` (line 203) checks `getattr(self.__class__, item, -1) != -1`
before consulting the state mapping, so an assignment to any of these names is
performed by `object.__setattr__` and bypasses the register-before-write check.
Attributes inherited from the external `rdfvalue.RDFValue` base class are not
modelled. -/
def flowStateClassAttrNames : List String :=
  ["data_store_type", "data", "__init__", "ParseFromString", "SerializeToString",
   "Empty", "__len__", "get", "Register", "__setattr__", "__getattr__", "__str__",
   "__eq__", "__dir__"]

/-- A `FlowState` instance, i.e. its `__dict__`.  Reading `self.data` finds the
`DataObject` stored there by `__init__` (the class default is `data = None`,
line 174). -/
structure FlowState where
  instAttrs : List (String × PyVal)

/-- The value of `self.data`: instance `__dict__` first, class default `None`
otherwise. -/
def FlowState.dataVal (s : FlowState) : PyVal :=
  (lookupKey s.instAttrs "data").getD PyVal.pnone

/-- `FlowState.__init__` (lines 176-178): `self.data = DataObject()`.  The
assignment runs through `FlowState.__setattr__`; `data` is a class attribute,
so it lands in the instance `__dict__`.  No `context` entry is installed. -/
def flowStateInit : FlowState := ⟨[("data", PyVal.pdict [])]⟩

/-- The message of the `AttributeError` raised on line 209-210. -/
def unregisteredMsg : String := "Can not assign to state without calling Register() first"

/-- `FlowState.Register` (lines 198-199): `setattr(self.data, item, value)`,
which is `DataObject.__setattr__`, i.e. the unconditional dictionary write
`self[item] = value` (lines 134-135).  A non-mapping `self.data` (possible only
after clobbering the `data` attribute) has no such slot. -/
def FlowState.Register (s : FlowState) (item : String) (value : PyVal) :
    Except PyErr FlowState :=
  match s.dataVal with
  | .pdict es => .ok ⟨setKey s.instAttrs "data" (.pdict (setKey es item value))⟩
  | _ => .error (.attributeError item)

/-- `FlowState.__setattr__` (lines 201-210): class or existing instance
attributes are assigned normally via `object.__setattr__`; otherwise the write
goes to `self.data` when the key already exists there, and raises the
unregistered-field `AttributeError` when it does not. -/
def FlowState.setattrF (s : FlowState) (item : String) (value : PyVal) :
    Except PyErr FlowState :=
  if flowStateClassAttrNames.contains item || hasKey s.instAttrs item then
    .ok ⟨setKey s.instAttrs item value⟩
  else
    match s.dataVal with
    | .pdict es =>
      if hasKey es item then
        .ok ⟨setKey s.instAttrs "data" (.pdict (setKey es item value))⟩
      else
        .error (.attributeError unregisteredMsg)
    | _ => .error .typeError

/-- `FlowState.get` (lines 195-196): `self.data.get(item, default)`. -/
def FlowState.get (s : FlowState) (item : String) (default : PyVal) :
    Except PyErr PyVal :=
  match s.dataVal with
  | .pdict es => .ok ((lookupKey es item).getD default)
  | _ => .error (.attributeError "get")

/-- `FlowState.Empty` (lines 189-190):
`return len(self.data) == 1 and not self.data.context`.  Python's `and`
short-circuits, and `self.data.context` raises `AttributeError` when no
`context` entry exists (`DataObject.__getattr__`, lines 137-141). -/
def FlowState.Empty (s : FlowState) : Except PyErr Bool :=
  match s.dataVal with
  | .pdict es =>
    if es.length = 1 then
      match lookupKey es "context" with
      | some v => .ok (!v.truthy)
      | Option.none => .error (.attributeError "context")
    else .ok false
  | _ => .error .typeError

/-- `FlowState.SerializeToString` (lines 186-187): `pickle.dumps(self.data)`. -/
def FlowState.SerializeToString (s : FlowState) : List Nat :=
  pickleDumps s.dataVal

/-- `FlowState.ParseFromString` (lines 180-184):
`self.data = pickle.loads(string)` (the assignment hits the class-attribute
branch of `__setattr__`), any unpickling failure re-raised as
`rdfvalue.DecodeError`. -/
def FlowState.ParseFromString (s : FlowState) (string : List Nat) :
    Except PyErr FlowState :=
  match pickleLoads string with
  | .ok v => .ok ⟨setKey s.instAttrs "data" v⟩
  | .error _ => .error .decodeError

/-- C4 counterexample: `data_store_type` is a class attribute of `FlowState`,
so `__setattr__` routes the assignment to `object.__setattr__` and succeeds,
although the name was never registered and is absent from the backing
mapping — the claimed "raises iff unregistered and absent" fails. -/
theorem flowState_setattr_class_attr_counterexample :
    flowStateInit.dataVal = PyVal.pdict []
      ∧ hasKey ([] : List (String × PyVal)) "data_store_type" = false
      ∧ flowStateInit.setattrF "data_store_type" (PyVal.pint 5)
          = .ok ⟨[("data", PyVal.pdict []), ("data_store_type", PyVal.pint 5)]⟩ :=
  ⟨rfl, rfl, rfl⟩

/-- C4 (amended): for a field name that is not a `FlowState` class attribute
and not already an instance attribute, with the backing `DataObject` intact,
`__setattr__` raises the unregistered-field error exactly when the field is
neither registered nor already present in the backing mapping; and the
sequence `Register("x", 1); Set("x", 2)` makes `Get("x", 0)` return `2`. -/
theorem flowState_setattr_unregistered_spec
    (s : FlowState) (f : String) (v : PyVal) (es : List (String × PyVal))
    (hclass : flowStateClassAttrNames.contains f = false)
    (hinst : hasKey s.instAttrs f = false)
    (hdata : s.dataVal = PyVal.pdict es) :
    (s.setattrF f v = .error (.attributeError unregisteredMsg) ↔ hasKey es f = false)
      ∧ (flowStateInit.Register "x" (PyVal.pint 1) >>= fun s1 =>
          s1.setattrF "x" (PyVal.pint 2) >>= fun s2 =>
          s2.get "x" (PyVal.pint 0)) = .ok (PyVal.pint 2) := by
  constructor
  · unfold FlowState.setattrF
    rw [hclass, hinst, hdata]
    by_cases h : hasKey es f
    · simp [h]
    · simp [h]
  · rfl

/-- Witness for C4 (amended) on a fresh container and the field name `y`. -/
theorem flowState_setattr_unregistered_spec_witness :
    (flowStateClassAttrNames.contains "y" = false
        ∧ hasKey flowStateInit.instAttrs "y" = false
        ∧ flowStateInit.dataVal = PyVal.pdict [])
      ∧ ((flowStateInit.setattrF "y" (PyVal.pint 3)
              = .error (.attributeError unregisteredMsg)
            ↔ hasKey ([] : List (String × PyVal)) "y" = false)
          ∧ (flowStateInit.Register "x" (PyVal.pint 1) >>= fun s1 =>
              s1.setattrF "x" (PyVal.pint 2) >>= fun s2 =>
              s2.get "x" (PyVal.pint 0)) = .ok (PyVal.pint 2)) :=
  ⟨⟨rfl, rfl, rfl⟩,
    flowState_setattr_unregistered_spec flowStateInit "y" (PyVal.pint 3) [] rfl rfl rfl⟩

/-- C5 counterexample: after `Register("x", 1); Set("x", 2)`, a second
`Register("x", 5)` overwrites the stored value, so `Get("x", 0)` returns `5`
and not the previously written `2`. -/
theorem flowState_reregister_counterexample :
    (flowStateInit.Register "x" (PyVal.pint 1) >>= fun s1 =>
        s1.setattrF "x" (PyVal.pint 2) >>= fun s2 =>
        s2.Register "x" (PyVal.pint 5) >>= fun s3 =>
        s3.get "x" (PyVal.pint 0)) = .ok (PyVal.pint 5)
      ∧ PyVal.pint 5 ≠ PyVal.pint 2 := by
  refine ⟨rfl, ?_⟩
  simp

/-- C5 (amended): `Register` on a container with an intact backing mapping is
an unconditional overwrite — after `Register(f, d)`, `Get(f, anyDefault)`
returns the new default `d` whatever value was stored before. -/
theorem flowState_reregister_overwrites
    (s : FlowState) (f : String) (d anyDefault : PyVal) (es : List (String × PyVal))
    (hdata : s.dataVal = PyVal.pdict es) :
    (s.Register f d >>= fun s1 => s1.get f anyDefault) = .ok d := by
  unfold FlowState.Register
  rw [hdata]
  show FlowState.get ⟨setKey s.instAttrs "data" (.pdict (setKey es f d))⟩ f anyDefault = .ok d
  unfold FlowState.get FlowState.dataVal
  rw [lookupKey_setKey_self]
  simp [lookupKey_setKey_self]

/-- Witness for C5 (amended): registering `x` with default `9` over a written
value makes `Get` return `9`. -/
theorem flowState_reregister_overwrites_witness :
    flowStateInit.dataVal = PyVal.pdict []
      ∧ (flowStateInit.Register "x" (PyVal.pint 9) >>= fun s1 =>
          s1.get "x" PyVal.pnone) = .ok (PyVal.pint 9) :=
  ⟨rfl, flowState_reregister_overwrites flowStateInit "x" (PyVal.pint 9) PyVal.pnone [] rfl⟩

/-- C6 counterexample: on a container whose only backing entry is a non-empty
`context` sub-mapping, `Empty()` returns `False`, refuting "true iff the only
entry present is the reserved `context` sub-mapping"; and on a freshly
constructed `FlowState` the backing mapping is empty — no `context` entry is
installed by `__init__` — so `Empty()` is again `False`, not `True`. -/
theorem flowState_empty_counterexample :
    (⟨[("data", PyVal.pdict [("context", PyVal.pdict [("k", PyVal.pint 1)])])]⟩
          : FlowState).dataVal
        = PyVal.pdict [("context", PyVal.pdict [("k", PyVal.pint 1)])]
      ∧ (⟨[("data", PyVal.pdict [("context", PyVal.pdict [("k", PyVal.pint 1)])])]⟩
          : FlowState).Empty = .ok false
      ∧ flowStateInit.dataVal = PyVal.pdict []
      ∧ flowStateInit.Empty = .ok false :=
  ⟨rfl, rfl, rfl, rfl⟩

/-- C6 (amended): with an intact backing mapping, `Empty()` returns `True` iff
the mapping has exactly one entry, that entry is keyed `context`, and its value
is falsy (such as the empty sub-mapping installed by the external runner at
operation start — the constructor itself installs none). -/
theorem flowState_empty_spec (s : FlowState) (es : List (String × PyVal))
    (hdata : s.dataVal = PyVal.pdict es) :
    s.Empty = .ok true
      ↔ es.length = 1 ∧ ∃ v, lookupKey es "context" = some v ∧ v.truthy = false := by
  unfold FlowState.Empty
  rw [hdata]
  by_cases hlen : es.length = 1
  · simp only [hlen, if_true]
    cases hctx : lookupKey es "context" with
    | none => simp
    | some v => simp
  · simp [hlen]

/-- Witness for C6 (amended): a lone empty `context` entry makes `Empty()`
return `True`. -/
theorem flowState_empty_spec_witness :
    (⟨[("data", PyVal.pdict [("context", PyVal.pdict [])])]⟩ : FlowState).dataVal
        = PyVal.pdict [("context", PyVal.pdict [])]
      ∧ ((⟨[("data", PyVal.pdict [("context", PyVal.pdict [])])]⟩ : FlowState).Empty
            = .ok true
          ↔ [("context", PyVal.pdict [])].length = 1
            ∧ ∃ v, lookupKey [("context", PyVal.pdict [])] "context" = some v
                ∧ v.truthy = false) :=
  ⟨rfl, flowState_empty_spec _ _ rfl⟩

/-- C9: deserializing a serialized `FlowState` (into any target container)
yields a container whose own serialization is byte-identical to the original
blob. -/
theorem flowState_serialize_roundtrip (s target : FlowState) :
    (target.ParseFromString s.SerializeToString).map FlowState.SerializeToString
      = .ok s.SerializeToString := by
  unfold FlowState.ParseFromString FlowState.SerializeToString
  rw [pickleLoads_pickleDumps]
  show Except.ok (pickleDumps (FlowState.dataVal ⟨setKey target.instAttrs "data" s.dataVal⟩))
      = Except.ok (pickleDumps s.dataVal)
  unfold FlowState.dataVal
  rw [lookupKey_setKey_self]
  rfl

/-! ## GrrMessage envelope

`GrrMessage.__init__` (lines 27-40) applies keyword arguments (including a
caller-supplied `priority`) through the external `RDFProtoStruct` constructor,
then — when a payload was supplied — stores it via the `payload` setter and
adopts the payload's own `priority` attribute when it has one (the
`try/except AttributeError` of lines 34-37), and finally mints a task id when
none was pre-set. -/

/-- A payload value: an `RDFValue` as far as the envelope is concerned (the
setter's `isinstance` check, lines 82-83, is discharged by typing).  The
`priorityField` component is `some p` exactly when the Python object exposes a
`priority` attribute (reading it then yields `p`); `age` models `value._age`
(lines 88-89). -/
structure RDFPayload where
  rdfName : String
  serialized : List Nat
  priorityField : Option Nat
  age : Option Nat

/-- The `GrrMessage` protobuf fields touched by the embedded methods.
Protobuf scalar defaults: `task_id = 0`, empty `args`, empty tag. -/
structure GrrMessage where
  task_id : Nat
  priority : Nat
  args : List Nat
  args_rdf_name : String
  args_age : Option Nat

/-- The `payload` property setter (lines 79-92): store the serialized bytes,
propagate `value._age` when it is not `None`, and record the type tag
`value.__class__.__name__`. -/
def setPayload (m : GrrMessage) (value : RDFPayload) : GrrMessage :=
  { m with
    args := value.serialized,
    args_age := match value.age with | some a => some a | Option.none => m.args_age,
    args_rdf_name := value.rdfName }

/-- `GrrMessage.__init__` (lines 27-40).  `priorityArg` is the caller-supplied
`priority` keyword applied by the superclass constructor before the payload is
processed; `time_ms`, `r` and `s` feed the task-id mint on line 40. -/
def grrMessageNew (payload : Option RDFPayload) (priorityArg : Nat) (time_ms r : Nat)
    (s : SchedulerState) : GrrMessage × SchedulerState :=
  let m0 : GrrMessage :=
    { task_id := 0, priority := priorityArg, args := [], args_rdf_name := "",
      args_age := Option.none }
  let m1 := match payload with
    | some p =>
      let m := setPayload m0 p
      match p.priorityField with
      | some pr => { m with priority := pr }
      | Option.none => m
    | Option.none => m0
  if m1.task_id = 0 then
    let out := GenerateTaskID m1.priority time_ms r s
    ({ m1 with task_id := out.1 }, out.2)
  else (m1, s)

/-- An entry of the `self.classes` type registry: a constructor whose
`ParseFromString` decodes the stored bytes (decoding may fail for arbitrary
registered classes). -/
structure RDFValueClass where
  parse : List Nat → Except PyErr PyVal

/-- `rdfvalue.RDFString.ParseFromString`: stores the bytes as a string value;
it never fails. -/
def rdfStringDecode (bytes : List Nat) : PyVal :=
  PyVal.pstr (String.mk (bytes.map Char.ofNat))

/-- The fallback class used by `self.classes.get(self.args_rdf_name,
rdfvalue.RDFString)` on line 72. -/
def rdfStringClass : RDFValueClass := ⟨fun bytes => .ok (rdfStringDecode bytes)⟩

/-- The `payload` property getter (lines 67-77): nothing when the type tag is
empty; otherwise decode with the registered class, falling back to
`RDFString` when the tag is not in the registry. -/
def getPayload (classes : List (String × RDFValueClass)) (m : GrrMessage) :
    Except PyErr (Option PyVal) :=
  if m.args_rdf_name ≠ "" then
    let result_cls := (lookupKey classes m.args_rdf_name).getD rdfStringClass
    (result_cls.parse m.args).map some
  else
    .ok Option.none

/-- C3: when the supplied payload exposes a `priority` attribute with value
`p`, the constructed envelope's priority is `p`, overriding any explicitly
passed caller priority `q`. -/
theorem grrMessage_payload_priority_overrides
    (P : RDFPayload) (q p time_ms r : Nat) (s : SchedulerState)
    (hp : P.priorityField = some p) :
    (grrMessageNew (some P) q time_ms r s).1.priority = p := by
  obtain ⟨nm, ser, pf, ag⟩ := P
  simp only [RDFPayload.priorityField] at hp
  subst hp
  rfl

/-- Witness for C3: a payload exposing priority `3` overrides the explicit
caller priority `5`. -/
theorem grrMessage_payload_priority_overrides_witness :
    ({ rdfName := "ClientInfo", serialized := [1, 2], priorityField := some 3,
        age := Option.none } : RDFPayload).priorityField = some 3
      ∧ (grrMessageNew
            (some { rdfName := "ClientInfo", serialized := [1, 2],
                    priorityField := some 3, age := Option.none })
            5 1000 9 ⟨0, 0⟩).1.priority = 3 :=
  ⟨rfl, grrMessage_payload_priority_overrides _ 5 3 1000 9 ⟨0, 0⟩ rfl⟩

/-- C7: the payload getter raises nothing on the two shapes the claim covers:
an empty type tag returns no payload value (not an error), and a non-empty tag
missing from the class registry decodes through the `RDFString` fallback,
which always succeeds on the stored bytes. -/
theorem getPayload_no_raise (classes : List (String × RDFValueClass)) (m : GrrMessage) :
    (m.args_rdf_name = "" → getPayload classes m = .ok Option.none)
      ∧ (m.args_rdf_name ≠ "" → lookupKey classes m.args_rdf_name = Option.none →
          getPayload classes m = .ok (some (rdfStringDecode m.args))) := by
  constructor
  · intro h
    unfold getPayload
    rw [h]
    simp
  · intro h hmiss
    unfold getPayload
    rw [if_pos h, hmiss]
    rfl

/-- Witness for C7: an envelope with no tag, and one with an unknown tag, in
an empty registry. -/
theorem getPayload_no_raise_witness :
    getPayload []
        { task_id := 1, priority := 0, args := [], args_rdf_name := "",
          args_age := Option.none } = .ok Option.none
      ∧ ("UnknownType" : String) ≠ ""
      ∧ lookupKey ([] : List (String × RDFValueClass)) "UnknownType" = Option.none
      ∧ getPayload []
          { task_id := 1, priority := 0, args := [65, 66],
            args_rdf_name := "UnknownType", args_age := Option.none }
          = .ok (some (rdfStringDecode [65, 66])) :=
  ⟨(getPayload_no_raise [] _).1 rfl, by decide, rfl,
    (getPayload_no_raise [] _).2 (by decide) rfl⟩
